import Mathlib

/-!
Shallow embedding of the django-profileboard repository
(src/django_profileboard: utils.py, middleware.py, consumers.py) and
verification of the frozen claims about it.

Modelling conventions:
- Python floats (request durations, memory samples) are modelled as exact
  rationals; no claim in scope depends on binary floating-point rounding.
- Python dicts used as insertion-ordered mappings are modelled as
  insertion-ordered association lists, matching CPython dict semantics.
- A Python function that may return an empty dict instead of a populated
  one is modelled with Option, none standing for the empty dict.
- Scanning loops that mirror re.sub or re.match are written with an explicit
  fuel argument equal to the input length, which bounds the recursion depth;
  every step consumes at least one character, so the fuel never runs out on
  the wrapper entry points.
-/

set_option maxRecDepth 40000

namespace DjangoProfileboard

/-- Python str whitespace class, as used by str.strip and the regex class
for spaces on ASCII input. -/
def pyIsSpace (c : Char) : Bool :=
  c = ' ' || c = '\t' || c = '\n' || c = '\r' || c = '\x0b' || c = '\x0c'

/-- Python str.strip on a character list: drop whitespace from both ends. -/
def pyStripList (l : List Char) : List Char :=
  ((l.dropWhile pyIsSpace).reverse.dropWhile pyIsSpace).reverse

/-- Python str.strip. -/
def pyStrip (s : String) : String :=
  ⟨pyStripList s.data⟩

/-- Python str.lower on ASCII input. -/
def pyLower (s : String) : String :=
  ⟨s.data.map Char.toLower⟩

/-- Python slice from the start, keeping at most n characters. -/
def pySlice (s : String) (n : Nat) : String :=
  ⟨s.data.take n⟩

/-- Word character for the regex word-boundary anchor on ASCII input. -/
def isWordChar (c : Char) : Bool :=
  c.isAlpha || c.isDigit || c = '_'

/-- Word boundary holds after a digit run when the next character, if any,
is not a word character. -/
def numBoundaryOk : List Char → Bool
  | [] => true
  | d :: _ => !isWordChar d

/-- Scanner for the substitution of every bare integer literal by N,
mirroring the first re.sub of QueryAnalyzer in utils.py. The Bool
argument records whether the previous character was a word character,
which decides the word boundary in front of a digit run. -/
def replaceNumsAux : Nat → Bool → List Char → List Char
  | 0, _, l => l
  | _ + 1, _, [] => []
  | fuel + 1, prevWord, c :: rest =>
    if c.isDigit && !prevWord then
      let restTail := List.dropWhile Char.isDigit rest
      if numBoundaryOk restTail then
        'N' :: replaceNumsAux fuel true restTail
      else
        (c :: List.takeWhile Char.isDigit rest) ++ replaceNumsAux fuel true restTail
    else
      c :: replaceNumsAux fuel (isWordChar c) rest

/-- Replacement of every bare integer literal by the placeholder N. -/
def replaceNums (l : List Char) : List Char :=
  replaceNumsAux l.length false l

/-- Scanner replacing every q-quoted literal by q S q, mirroring the two
quoted-string substitutions of QueryAnalyzer in utils.py. An opening
quote with no closing quote matches nothing and the rest is kept. -/
def replaceQuotedAux (q : Char) : Nat → List Char → List Char
  | 0, l => l
  | _ + 1, [] => []
  | fuel + 1, c :: rest =>
    if c = q then
      match List.dropWhile (fun d => !(d = q)) rest with
      | [] => c :: rest
      | _ :: after => q :: 'S' :: q :: replaceQuotedAux q fuel after
    else
      c :: replaceQuotedAux q fuel rest

/-- Replacement of every q-quoted literal by q S q. -/
def replaceQuoted (q : Char) (l : List Char) : List Char :=
  replaceQuotedAux q l.length l

/-- Scanner collapsing every named parameter placeholder of the shape
percent, parenthesised name, s to percent s, mirroring the last re.sub of
QueryAnalyzer in utils.py. -/
def replacePercentAux : Nat → List Char → List Char
  | 0, l => l
  | _ + 1, [] => []
  | fuel + 1, c :: rest =>
    if c = '%' then
      match rest with
      | '(' :: rest2 =>
        match List.dropWhile (fun d => !(d = ')')) rest2 with
        | ')' :: 's' :: after => '%' :: 's' :: replacePercentAux fuel after
        | _ => c :: replacePercentAux fuel rest
      | _ => c :: replacePercentAux fuel rest
    else
      c :: replacePercentAux fuel rest

/-- Collapse of named parameter placeholders to percent s. -/
def replacePercent (l : List Char) : List Char :=
  replacePercentAux l.length l

/-- QueryAnalyzer normalization of SQL for similarity detection
(utils.py lines 260 to 277): strip and lowercase, replace bare integer
literals by N, replace single- and double-quoted strings by S, collapse
named parameter placeholders. -/
def _normalize_sql (sql : String) : String :=
  let n0 := (pyStrip sql).data.map Char.toLower
  let n1 := replaceNums n0
  let n2 := replaceQuoted '\x27' n1
  let n3 := replaceQuoted '"' n2
  ⟨replacePercent n3⟩

/-- One query record as consumed by QueryAnalyzer.analyze_queries: the
sql text and the duration (Python float, modelled as a rational). -/
structure AnalyzedQuery where
  sql : String
  duration : Rat
deriving DecidableEq

/-- One entry of the duplicates list of the analysis. -/
structure DupGroup where
  sql : String
  count : Nat
  indices : List Nat
deriving DecidableEq

/-- One entry of the slow-queries list of the analysis. -/
structure SlowQuery where
  index : Nat
  duration : Rat
  sql : String
deriving DecidableEq

/-- One entry of the N-plus-one candidates list of the analysis. -/
structure NPlusOneGroup where
  normalized_sql : String
  count : Nat
  indices : List Nat
deriving DecidableEq

/-- The analysis dictionary built by QueryAnalyzer.analyze_queries for a
nonempty query list. The similar_queries entry is created as an empty
defaultdict and never populated in the source; it is kept as a field that
stays empty. -/
structure QueryAnalysis where
  total_queries : Nat
  total_time : Rat
  duplicates : List DupGroup
  similar_queries : List (String × List Nat)
  slow_queries : List SlowQuery
  n_plus_one_candidates : List NPlusOneGroup
deriving DecidableEq

/-- Lookup in an insertion-ordered association list, as a Python dict
membership test plus indexing. -/
def assocFind (k : String) : List (String × List Nat) → Option (List Nat)
  | [] => none
  | (k1, v) :: rest => if k1 = k then some v else assocFind k rest

/-- Append index i to the group of key k, or insert a new singleton group
at the end, mirroring dict insertion order. -/
def groupAdd (k : String) (i : Nat) : List (String × List Nat) → List (String × List Nat)
  | [] => [(k, [i])]
  | (k1, v) :: rest =>
    if k1 = k then (k1, v ++ [i]) :: rest else (k1, v) :: groupAdd k i rest

/-- The exact-duplicate pass of analyze_queries (utils.py lines 218 to
231): walking the queries in order with a dict from stripped sql text to
the indices seen so far, and appending one duplicates entry on every
repeat occurrence. -/
def dupPass : Nat → List (String × List Nat) → List AnalyzedQuery → List DupGroup
  | _, _, [] => []
  | i, hashes, q :: rest =>
    let sql := pyStrip q.sql
    match assocFind sql hashes with
    | some idxs =>
        ⟨sql, idxs.length + 1, idxs ++ [i]⟩ :: dupPass (i + 1) (groupAdd sql i hashes) rest
    | none => dupPass (i + 1) (groupAdd sql i hashes) rest

/-- The slow-query pass of analyze_queries (utils.py lines 233 to 241):
flag every query with duration strictly greater than the threshold,
previewing long sql texts to 100 characters plus an ellipsis. -/
def slowPass (threshold : Rat) : Nat → List AnalyzedQuery → List SlowQuery
  | _, [] => []
  | i, q :: rest =>
    let sql := pyStrip q.sql
    let preview := if sql.data.length > 100 then pySlice sql 100 ++ "..." else sql
    if threshold < q.duration then
      ⟨i, q.duration, preview⟩ :: slowPass threshold (i + 1) rest
    else
      slowPass threshold (i + 1) rest

/-- Grouping of query indices by normalized sql signature, in first-seen
key order (utils.py lines 245 to 248). -/
def groupByNormalized : Nat → List (String × List Nat) → List AnalyzedQuery →
    List (String × List Nat)
  | _, acc, [] => acc
  | i, acc, q :: rest => groupByNormalized (i + 1) (groupAdd (_normalize_sql q.sql) i acc) rest

/-- The N-plus-one candidate selection (utils.py lines 250 to 256): every
normalized-signature group with strictly more than two members, in group
first-seen order. -/
def nPlusOneOf (groups : List (String × List Nat)) : List NPlusOneGroup :=
  (groups.filter (fun g => decide (2 < g.2.length))).map
    (fun g => ⟨g.1, g.2.length, g.2⟩)

/-- QueryAnalyzer.analyze_queries (utils.py lines 202 to 258). The Python
function returns the empty dict for an empty query list, modelled as none;
for a nonempty list it returns the populated analysis dict. The slow-query
threshold setting, default 0.1 seconds, is passed explicitly. -/
def analyze_queries (threshold : Rat) (queries : List AnalyzedQuery) : Option QueryAnalysis :=
  if queries = [] then none
  else some
    ⟨queries.length,
     (queries.map AnalyzedQuery.duration).sum,
     dupPass 0 [] queries,
     [],
     slowPass threshold 0 queries,
     nPlusOneOf (groupByNormalized 0 [] queries)⟩

/-- Parameters recorded for one captured query (utils.py lines 96 to
109). The branch for the literal text None stores an empty dict; the
other branches run ast.literal_eval with sanitization, abstracted here as
the raw matched text, on which no claim depends. -/
inductive CapturedParams
  | emptyDict
  | raw (s : String)
deriving DecidableEq

/-- One query event appended by ProfileDataCollector.add_query (utils.py
lines 23 to 31). The timestamp is the wall clock at append time, passed
in explicitly. -/
structure QueryEvent where
  sql : String
  params : CapturedParams
  duration : Rat
  stack_trace : String
  timestamp : Rat
deriving DecidableEq

/-- One external API call appended by ProfileDataCollector.add_api_call
(utils.py lines 33 to 41). -/
structure ApiCallEvent where
  url : String
  method : String
  duration : Rat
  status_code : Nat
  timestamp : Rat
deriving DecidableEq

/-- ProfileDataCollector (utils.py lines 9 to 52): the per-request mutable
accumulator. Request metadata is a free-form insertion-ordered mapping.
The middleware_timings dict is never populated in the source and is
omitted. -/
structure ProfileDataCollector where
  profile_id : String
  request_data : List (String × String)
  queries : List QueryEvent
  api_calls : List ApiCallEvent
deriving DecidableEq

/-- ProfileDataCollector.add_query: append one query event. -/
def ProfileDataCollector.add_query (c : ProfileDataCollector) (sql : String)
    (params : CapturedParams) (duration : Rat) (stack_trace : String)
    (now : Rat) : ProfileDataCollector :=
  ⟨c.profile_id, c.request_data, c.queries ++ [⟨sql, params, duration, stack_trace, now⟩],
   c.api_calls⟩

/-- The finalized profile dict built by ProfileDataCollector.finalize
(utils.py lines 43 to 52) from the collector and the final metrics merged
in by the middleware. -/
structure ProfileData where
  request_data : List (String × String)
  duration : Rat
  memory_usage : Rat
  status_code : Nat
  is_error : Bool
  queries : List QueryEvent
  api_calls : List ApiCallEvent
  profile_id : String
deriving DecidableEq

/-- ProfileDataCollector.finalize with the final metrics the middleware
passes (middleware.py lines 95 to 100). -/
def ProfileDataCollector.finalize (c : ProfileDataCollector) (duration memory_usage : Rat)
    (status_code : Nat) (is_error : Bool) : ProfileData :=
  ⟨c.request_data, duration, memory_usage, status_code, is_error, c.queries,
   c.api_calls, c.profile_id⟩

/-- List prefix test by character equality. -/
def listIsPrefixCheck : List Char → List Char → Bool
  | [], _ => true
  | _ :: _, [] => false
  | a :: as, b :: bs => a = b && listIsPrefixCheck as bs

/-- Substring occurrence test, as the Python in operator on str. -/
def listInfixCheck (pat : List Char) : List Char → Bool
  | [] => listIsPrefixCheck pat []
  | c :: rest => listIsPrefixCheck pat (c :: rest) || listInfixCheck pat rest

/-- Python substring containment test. -/
def strContains (s pat : String) : Bool :=
  listInfixCheck pat.data s.data

/-- Python str.startswith. -/
def pyStartswith (s pre : String) : Bool :=
  listIsPrefixCheck pre.data s.data

/-- Value of a digit string read left to right. -/
def digitsToNatAux (acc : Nat) : List Char → Nat
  | [] => acc
  | c :: rest => digitsToNatAux (acc * 10 + (c.toNat - '0'.toNat)) rest

/-- Exact value of a decimal literal with integer and fractional part, the
model of float applied to the matched duration group. -/
def decimalToRat (intPart fracPart : List Char) : Rat :=
  mkRat (Int.ofNat (digitsToNatAux 0 intPart * 10 ^ fracPart.length + digitsToNatAux 0 fracPart))
    (10 ^ fracPart.length)

/-- Match of the anchored prefix of the SQL log regex of SQLQueryCapture
(utils.py lines 67 to 70): an opening parenthesis, digits, a dot, digits,
a closing parenthesis. Returns the two digit groups and the rest. -/
def matchDurationGroup : List Char → Option (List Char × List Char × List Char)
  | '(' :: rest =>
    let d1 := rest.takeWhile Char.isDigit
    let r1 := rest.dropWhile Char.isDigit
    if d1 = [] then none
    else
      match r1 with
      | '.' :: r2 =>
        let d2 := r2.takeWhile Char.isDigit
        let r3 := r2.dropWhile Char.isDigit
        if d2 = [] then none
        else
          match r3 with
          | ')' :: r4 => some (d1, d2, r4)
          | _ => none
      | _ => none
  | _ => none

/-- Match of the separator of the SQL log regex: a semicolon, at least one
whitespace, the literal text args and an equals sign, followed by at
least one further character; returns that remainder. -/
def matchSep : List Char → Option (List Char)
  | ';' :: c :: rest =>
    if pyIsSpace c then
      match List.dropWhile pyIsSpace (c :: rest) with
      | 'a' :: 'r' :: 'g' :: 's' :: '=' :: rest2 =>
        if rest2 = [] then none else some rest2
      | _ => none
    else none
  | _ => none

/-- Lazy split for the middle group of the SQL log regex: the shortest
prefix after which the separator and a nonempty args group match, the
backtracking behaviour of a lazy star followed by the separator. -/
def lazySqlSplit : List Char → Option (List Char × List Char)
  | [] => none
  | c :: rest =>
    match matchSep (c :: rest) with
    | some args => some ([], args)
    | none =>
      match lazySqlSplit rest with
      | some (sql, args) => some (c :: sql, args)
      | none => none

/-- Full match of the SQL log regex of SQLQueryCapture against a message:
duration digit groups, sql group, args group. -/
def parseSqlMessage (msg : String) : Option ((List Char × List Char) × List Char × List Char) :=
  match matchDurationGroup msg.data with
  | none => none
  | some (d1, d2, rest) =>
    match rest with
    | [] => none
    | c :: rest2 =>
      if pyIsSpace c then
        match lazySqlSplit (List.dropWhile pyIsSpace (c :: rest2)) with
        | some (sql, args) => some ((d1, d2), sql, args)
        | none => none
      else none

/-- SQLQueryCapture.emit (utils.py lines 76 to 124) acting on the handler
collector slot: skip when no collector is bound or when the message
mentions the profiler itself, otherwise parse the message and append one
query event to the bound collector, truncating the sql to 1000
characters. The stack trace text produced by runtime stack introspection
is passed in as an input; parse failures leave the collector unchanged. -/
def SQLQueryCapture.emit (collector : Option ProfileDataCollector) (message : String)
    (stackText : String) (now : Rat) : Option ProfileDataCollector :=
  match collector with
  | none => none
  | some coll =>
    if strContains message "django_profileboard" then some coll
    else
      match parseSqlMessage message with
      | none => some coll
      | some ((d1, d2), sqlChars, argsChars) =>
        let duration := decimalToRat d1 d2
        let sql := pyStrip ⟨sqlChars⟩
        let params : CapturedParams :=
          if argsChars = "None".data then .emptyDict else .raw ⟨argsChars⟩
        some (coll.add_query (pySlice sql 1000) params duration (pySlice stackText 2000) now)

/-! Embedding of middleware.py: RequestProfilerMiddleware. -/

/-- The Django settings consulted by the middleware, read-only at run
time. Absent values fall back to the getattr defaults at the use sites. -/
structure DjangoSettings where
  profileboard_enabled : Option Bool
deriving DecidableEq

/-- The django-flags feature-flag store written by the dashboard toggle.
It is a distinct store from the Django settings. -/
structure FlagStore where
  performance_profiler_enabled : Bool
deriving DecidableEq

/-- The thread-local slots of RequestProfilerMiddleware for one request
context (middleware.py lines 62 to 65 and 115 to 122): a slot holding
none models a deleted or never-set attribute. -/
structure ThreadLocal where
  collector : Option ProfileDataCollector
  start_time : Option Rat
  start_memory : Option Rat
deriving DecidableEq

/-- An HTTP response as seen by process_response. -/
structure HttpResponse where
  status_code : Nat
  body : String
deriving DecidableEq

/-- RequestProfilerMiddleware._should_profile (middleware.py lines 126 to
148): settings flag with default true, self-exclusion of the dashboard
namespace, re-entrancy guard, static and media assets, noise paths. -/
def _should_profile (settings : DjangoSettings) (profiling_in_progress : Bool)
    (path : String) : Bool :=
  if !(settings.profileboard_enabled.getD true) then false
  else if pyStartswith path "/__monitor__" then false
  else if profiling_in_progress then false
  else if pyStartswith path "/static/" || pyStartswith path "/media/" then false
  else if pyStartswith path "/.well-known/" || pyStartswith path "/ws/" then false
  else true

/-- RequestProfilerMiddleware.process_request (middleware.py lines 53 to
78): when profiling applies, allocate a collector with the request
metadata, fill the thread-local slots, and point the shared SQL handler
slot at the new collector. The generated uuid, clock and memory sample
are inputs. Returns the new thread-local state and the new handler slot. -/
def process_request (settings : DjangoSettings) (profiling_in_progress : Bool)
    (path : String) (locals0 : ThreadLocal) (handler0 : Option ProfileDataCollector)
    (profile_id : String) (startTime startMemory : Rat)
    (meta : List (String × String)) : ThreadLocal × Option ProfileDataCollector :=
  if !(_should_profile settings profiling_in_progress path) then (locals0, handler0)
  else
    let collector : ProfileDataCollector := ⟨profile_id, meta, [], []⟩
    (⟨some collector, some startTime, some startMemory⟩, some collector)

/-- RequestProfilerMiddleware.process_response (middleware.py lines 80 to
124). Without a bound collector the response passes through untouched.
Otherwise the try block finalizes the profile, persists it and
broadcasts it; a missing start slot raises inside the try block, and
persistence failure is swallowed inside the store helper while a
broadcast failure raises into the outer except; every raise is caught
and the finally block deletes the three thread-local slots. Returns the
response, the new thread-local state, the persisted profiles and the
broadcast profiles. -/
def process_response (locals0 : ThreadLocal) (response : HttpResponse)
    (endTime endMemory : Rat) (persistFails broadcastFails : Bool) :
    HttpResponse × ThreadLocal × List ProfileData × List ProfileData :=
  match locals0.collector with
  | none => (response, locals0, [], [])
  | some c =>
    let cleared : ThreadLocal := ⟨none, none, none⟩
    match locals0.start_time, locals0.start_memory with
    | some t0, some m0 =>
      let duration := endTime - t0
      let memory_used := max 0 (endMemory - m0)
      let profile := c.finalize duration memory_used response.status_code
        (decide (400 ≤ response.status_code))
      let stored := if persistFails then [] else [profile]
      if broadcastFails then (response, cleared, stored, [])
      else (response, cleared, stored, [profile])
    | _, _ => (response, cleared, [], [])

/-! Interleaving model for the concurrent capture pipeline. The
SQLQueryCapture handler is one process-wide object; its collector slot,
written by set_collector, is a single shared attribute, while the
middleware locals are per request. The model runs an arbitrary
interleaving of request starts and query log emissions; each query log
event carries the id of the request whose handling issued it, which the
handler cannot see. -/

/-- Global state of the capture pipeline: the shared handler slot holds
the id of the request whose collector it points at, and each concurrently
handled request owns one collector, listed by request id. -/
structure CaptureState where
  handlerSlot : Option Nat
  collectors : List ProfileDataCollector
deriving DecidableEq

/-- Replace the element at a position of a list. -/
def updateAt (i : Nat) (f : α → α) : List α → List α
  | [] => []
  | a :: rest =>
    match i with
    | 0 => f a :: rest
    | j + 1 => a :: updateAt j f rest

/-- One scheduler event: a request start running set_collector on the
shared handler (middleware.py line 68, utils.py lines 72 to 74), or a
database query logged while the named request is being handled, which
runs emit against whatever collector the shared slot currently holds. -/
inductive CapEvent
  | setCollector (requestId : Nat)
  | sqlLog (issuingRequest : Nat) (message : String) (now : Rat)
deriving DecidableEq

/-- Step of the capture pipeline under one event. -/
def capStep (s : CaptureState) : CapEvent → CaptureState
  | .setCollector r => ⟨some r, s.collectors⟩
  | .sqlLog _ message now =>
    match s.handlerSlot with
    | none => s
    | some h =>
      ⟨some h,
       updateAt h
         (fun c =>
           match SQLQueryCapture.emit (some c) message "" now with
           | some c2 => c2
           | none => c)
         s.collectors⟩

/-- Run of the capture pipeline over an event trace. -/
def capRun (s : CaptureState) : List CapEvent → CaptureState
  | [] => s
  | e :: rest => capRun (capStep s e) rest

/-! Embedding of consumers.py: ProfileDashboardConsumer. -/

/-- The principal attached to a connecting dashboard session. -/
structure DashUser where
  anonymous : Bool
  is_staff : Bool
  has_view_dashboard_perm : Bool
deriving DecidableEq

/-- ProfileDashboardConsumer._has_profiler_permission (consumers.py lines
70 to 74): staff or the explicit view_dashboard permission. -/
def _has_profiler_permission (u : DashUser) : Bool :=
  u.is_staff || u.has_view_dashboard_perm

/-- Outcome of a connection attempt. -/
inductive ConnectResult
  | closed (code : Nat)
  | accepted
deriving DecidableEq

/-- ProfileDashboardConsumer.connect (consumers.py lines 11 to 34):
anonymous principals close with 4001, authenticated principals without
the capability close with 4003, and only past both checks is the channel
added to the broadcast group and the session accepted. The broadcast
registry is the channel-layer group membership list. -/
def ProfileDashboardConsumer.connect (u : DashUser) (registry : List String)
    (channel : String) : ConnectResult × List String :=
  if u.anonymous then (.closed 4001, registry)
  else if !(_has_profiler_permission u) then (.closed 4003, registry)
  else (.accepted, registry ++ [channel])

/-- One stored database query row as projected by the values call of
_send_request_details (consumers.py line 181): sql, duration, params. -/
structure StoredQueryValues where
  sql : String
  duration : Rat
  params : CapturedParams
deriving DecidableEq

/-- One stored database query row (models.py DatabaseQuery). -/
structure DatabaseQueryRow where
  sql : String
  params : CapturedParams
  duration : Rat
  stack_trace : String
deriving DecidableEq

/-- One stored external API call row (models.py ExternalAPICall). -/
structure ApiCallRow where
  url : String
  method : String
  duration : Rat
  status_code : Nat
deriving DecidableEq

/-- One stored request profile row (models.py RequestProfile) together
with its related database queries and external API calls. -/
structure RequestProfileRow where
  id : String
  timestamp : String
  url : String
  view_name : String
  method : String
  duration : Rat
  memory_usage : Option Rat
  db_queries_count : Nat
  db_queries_time : Rat
  status_code : Nat
  is_error : Bool
  database_queries : List DatabaseQueryRow
  api_calls : List ApiCallRow
deriving DecidableEq

/-- The details payload sent by _send_request_details (consumers.py lines
184 to 196). -/
structure RequestDetails where
  id : String
  timestamp : String
  url : String
  view_name : String
  method : String
  duration : Rat
  memory_usage : Rat
  status_code : Nat
  is_error : Bool
  database_queries : List StoredQueryValues
  api_calls : List ApiCallRow
deriving DecidableEq

/-- Reply of the request_details handler. -/
inductive DetailsReply
  | details (d : RequestDetails)
  | errorReply
deriving DecidableEq

/-- Primary-key lookup against the stored profiles; ids are unique
primary keys, so the first match is the only match and an absent id
raises DoesNotExist. -/
def dbGet (db : List RequestProfileRow) (request_id : String) : Option RequestProfileRow :=
  db.find? (fun r => r.id = request_id)

/-- ProfileDashboardConsumer._send_request_details (consumers.py lines
171 to 207): fetch the profile by id, project its stored queries to sql,
duration and params keeping only the first ten, attach a hard-coded empty
api_calls list, and reply with the details; any lookup failure is caught
and answered with an error reply. -/
def _send_request_details (db : List RequestProfileRow) (request_id : String) : DetailsReply :=
  match dbGet db request_id with
  | none => .errorReply
  | some r =>
    .details
      ⟨r.id, r.timestamp, r.url, r.view_name, r.method, r.duration,
       r.memory_usage.getD 0, r.status_code, r.is_error,
       (r.database_queries.take 10).map (fun q => ⟨q.sql, q.duration, q.params⟩),
       []⟩

/-- ProfileDashboardConsumer._toggle_profiler (consumers.py lines 209 to
224): write the named django-flags flag and confirm. The flag store
reachable case is modelled; the unreachable case only changes the reply,
not the middleware behaviour at issue. -/
def _toggle_profiler (enabled : Bool) (_flags0 : FlagStore) : FlagStore × Bool :=
  (⟨enabled⟩, enabled)

/-- Classification of one inbound text frame as json.loads and the
attribute access on its result see it (consumers.py lines 46 to 48):
text that is not valid JSON raises in json.loads; valid JSON that is not
an object raises AttributeError at the type lookup; a JSON object yields
an optional type field. -/
inductive InboundText
  | malformed
  | nonObjectJson
  | objectJson (msgType : Option String)
deriving DecidableEq

/-- Messages the consumer can send back from receive. -/
inductive OutMsg
  | errorReply
  | historyReply
  | detailsReply
  | toggleReply
deriving DecidableEq

/-- Whether each dispatched handler raises out of its call, in which case
the outer except of receive answers with an error reply. -/
structure HandlerRaises where
  history : Bool
  details : Bool
  toggle : Bool
deriving DecidableEq

/-- Result of receive: the replies sent and whether the session was
closed by the handler. -/
structure ReceiveResult where
  sent : List OutMsg
  closedSession : Bool
deriving DecidableEq

/-- ProfileDashboardConsumer.receive (consumers.py lines 44 to 61):
dispatch on the type field among request_history, request_details and
toggle_profiler; any other or missing type falls through silently; any
exception, from json.loads, from the attribute access on a non-object,
or from a handler, is answered with a single error reply; the session is
never closed here. -/
def ProfileDashboardConsumer.receive (raises : HandlerRaises) (msg : InboundText) :
    ReceiveResult :=
  match msg with
  | .malformed => ⟨[.errorReply], false⟩
  | .nonObjectJson => ⟨[.errorReply], false⟩
  | .objectJson msgType =>
    if msgType = some "request_history" then
      if raises.history then ⟨[.errorReply], false⟩ else ⟨[.historyReply], false⟩
    else if msgType = some "request_details" then
      if raises.details then ⟨[.errorReply], false⟩ else ⟨[.detailsReply], false⟩
    else if msgType = some "toggle_profiler" then
      if raises.toggle then ⟨[.errorReply], false⟩ else ⟨[.toggleReply], false⟩
    else ⟨[], false⟩

/-! Concrete inputs used by the theorems below. -/

/-- Three queries sharing a normalized signature with distinct integer
literals. -/
def nPlusOneQs3 : List AnalyzedQuery :=
  [⟨"SELECT * FROM t WHERE id = 1", mkRat 1 100⟩,
   ⟨"SELECT * FROM t WHERE id = 2", mkRat 1 100⟩,
   ⟨"SELECT * FROM t WHERE id = 3", mkRat 1 100⟩]

/-- Only two queries sharing a normalized signature. -/
def nPlusOneQs2 : List AnalyzedQuery :=
  [⟨"SELECT * FROM t WHERE id = 1", mkRat 1 100⟩,
   ⟨"SELECT * FROM t WHERE id = 2", mkRat 1 100⟩]

/-- Five queries of which exactly the first, third and fifth share one
literal sql text. -/
def dupQs5 : List AnalyzedQuery :=
  [⟨"A", 0⟩, ⟨"B", 0⟩, ⟨"A", 0⟩, ⟨"C", 0⟩, ⟨"A", 0⟩]

/-- A stored profile with eleven database queries and one external API
call. -/
def bigProfileRow : RequestProfileRow :=
  ⟨"id1", "2024-01-01T00:00:00", "/shop/", "shop.view", "GET", 1, some 1, 11, 0, 200, false,
   (List.range 11).map (fun _ => ⟨"SELECT x FROM t", .emptyDict, 0, ""⟩),
   [⟨"http://api.example", "GET", 0, 200⟩]⟩

/-- Query and api-call counts carried by a details reply, none for an
error reply. -/
def detailsCounts : DetailsReply → Option (Nat × Nat)
  | .details d => some (d.database_queries.length, d.api_calls.length)
  | .errorReply => none

/-- Collectors of two concurrently handled requests. -/
def c1Collector0 : ProfileDataCollector := ⟨"profile-a", [], [], []⟩

/-- Second collector for the interleaving trace. -/
def c1Collector1 : ProfileDataCollector := ⟨"profile-b", [], [], []⟩

/-- Interleaving: request 0 starts and binds its collector, request 1
starts and overwrites the shared handler slot, then a query issued while
handling request 0 is logged. -/
def c1Trace : List CapEvent :=
  [.setCollector 0, .setCollector 1,
   .sqlLog 0 "(0.123) SELECT * FROM shop; args=None" 5]

/-- Membership in the N-plus-one candidate list of a grouping is exactly
membership of a group with strictly more than two members. -/
theorem mem_nPlusOneOf (groups : List (String × List Nat)) (sig : String) (cnt : Nat)
    (idxs : List Nat) :
    (NPlusOneGroup.mk sig cnt idxs) ∈ nPlusOneOf groups ↔
      ((sig, idxs) ∈ groups ∧ cnt = idxs.length ∧ 2 < idxs.length) := by
  unfold nPlusOneOf
  simp only [List.mem_map, List.mem_filter, decide_eq_true_eq, NPlusOneGroup.mk.injEq]
  constructor
  · rintro ⟨⟨s, l⟩, ⟨hmem, hlen⟩, hs, hc, hl⟩
    subst hs; subst hc; subst hl
    exact ⟨hmem, rfl, hlen⟩
  · rintro ⟨hmem, hc, hl⟩
    exact ⟨(sig, idxs), ⟨hmem, hl⟩, rfl, hc.symm, rfl⟩

/-- C1: the claim says a query captured during request i is appended only
to the collector of request i. In the source the collector binding of
the process-wide SQLQueryCapture handler is one shared attribute, not a
per-thread slot, so in the interleaving where request 1 starts between
the start of request 0 and a query issued by request 0, that query is
appended to the collector of request 1: the query issued by request 0
ends in the other collector and the collector of request 0 stays empty. -/
theorem C1_cross_attribution :
    (capRun ⟨none, [c1Collector0, c1Collector1]⟩ c1Trace).collectors.map
        (fun c => c.queries.map QueryEvent.sql) =
      [[], ["SELECT * FROM shop"]] ∧
      (capRun ⟨none, [c1Collector0, c1Collector1]⟩ c1Trace).handlerSlot = some 1 := by
  decide

/-- C2: the dashboard toggle writes the django-flags flag
PERFORMANCE_PROFILER_ENABLED, but _should_profile consults only the
Django setting PROFILEBOARD_ENABLED, whose getattr default is true. So
after toggle_profiler with enabled false, the flag store holds false,
yet _should_profile still answers true for an ordinary path and
process_request still allocates a collector: the immediately following
request is profiled, against the claim. -/
theorem C2_toggle_does_not_disable_profiling :
    ((_toggle_profiler false ⟨true⟩).1.performance_profiler_enabled = false) ∧
      (_should_profile ⟨none⟩ false "/shop/cart" = true) ∧
      ((process_request ⟨none⟩ false "/shop/cart" ⟨none, none, none⟩ none "pid" 0 0
          []).1.collector ≠ none) := by
  decide

/-- C3 counterexample: on five queries of which exactly three share one
literal sql text, analyze_queries does not report exactly one duplicate
group; it appends one group entry per repeat occurrence, here two. -/
theorem C3_counterexample :
    (analyze_queries (mkRat 1 10) dupQs5).map (fun a => a.duplicates.length) ≠ some 1 := by
  decide

/-- C3 amended: for five queries of which exactly the first, third and
fifth share one literal sql text, analyze_queries reports one duplicate
group entry per repeat occurrence, two entries in total, and the last
entry lists all three indices in first-seen order with count three. -/
theorem C3_duplicate_groups :
    ∀ (threshold : Rat) (s t u : String) (d0 d1 d2 d3 d4 : Rat),
      pyStrip s ≠ pyStrip t → pyStrip s ≠ pyStrip u → pyStrip t ≠ pyStrip u →
      (analyze_queries threshold [⟨s, d0⟩, ⟨t, d1⟩, ⟨s, d2⟩, ⟨u, d3⟩, ⟨s, d4⟩]).map
          QueryAnalysis.duplicates =
        some [⟨pyStrip s, 2, [0, 2]⟩, ⟨pyStrip s, 3, [0, 2, 4]⟩] := by
  intro threshold s t u d0 d1 d2 d3 d4 hst hsu htu
  simp [analyze_queries, dupPass, assocFind, groupAdd, hst, hsu, htu]

/-- Witness for C3: the duplicate-group shape at a concrete input. -/
theorem C3_duplicate_groups_witness :
    (analyze_queries (mkRat 1 10) dupQs5).map QueryAnalysis.duplicates =
      some [⟨pyStrip "A", 2, [0, 2]⟩, ⟨pyStrip "A", 3, [0, 2, 4]⟩] :=
  C3_duplicate_groups (mkRat 1 10) "A" "B" "C" 0 0 0 0 0 (by decide) (by decide) (by decide)

/-- C4 counterexample: for a stored profile with eleven queries and one
external API call, the details reply carries only ten queries and an
empty api_calls list, so the reply does not include all stored queries
nor the stored external calls. -/
theorem C4_counterexample :
    detailsCounts (_send_request_details [bigProfileRow] "id1") = some (10, 0) ∧
      bigProfileRow.database_queries.length = 11 ∧
      bigProfileRow.api_calls.length = 1 := by
  decide

/-- C4 amended: for every stored id the details reply carries the stored
profile limited to the first ten stored queries, projected to sql,
duration and params, and an always-empty api_calls list; an id with no
stored profile is answered with an error reply, and only such an id is. -/
theorem C4_request_details :
    ∀ (db : List RequestProfileRow) (request_id : String),
      (∀ r, dbGet db request_id = some r →
        ∃ d, _send_request_details db request_id = .details d ∧
          d.id = r.id ∧
          d.database_queries =
            (r.database_queries.take 10).map (fun q => ⟨q.sql, q.duration, q.params⟩) ∧
          d.database_queries.length = min 10 r.database_queries.length ∧
          d.api_calls = []) ∧
      (dbGet db request_id = none ↔ _send_request_details db request_id = .errorReply) := by
  intro db rid
  constructor
  · intro r h
    refine ⟨⟨r.id, r.timestamp, r.url, r.view_name, r.method, r.duration,
      r.memory_usage.getD 0, r.status_code, r.is_error,
      (r.database_queries.take 10).map (fun q => ⟨q.sql, q.duration, q.params⟩), []⟩,
      ?_, rfl, rfl, ?_, rfl⟩
    · simp [_send_request_details, h]
    · simp [List.length_take]
  · constructor
    · intro h; simp [_send_request_details, h]
    · intro h
      match hg : dbGet db rid with
      | none => rfl
      | some r => simp [_send_request_details, hg] at h

/-- Witness for C4: the amended description at a concrete store. -/
theorem C4_request_details_witness :
    ∃ d, _send_request_details [bigProfileRow] "id1" = .details d ∧
      d.id = bigProfileRow.id ∧
      d.database_queries =
        (bigProfileRow.database_queries.take 10).map (fun q => ⟨q.sql, q.duration, q.params⟩) ∧
      d.database_queries.length = min 10 bigProfileRow.database_queries.length ∧
      d.api_calls = [] :=
  (C4_request_details [bigProfileRow] "id1").1 bigProfileRow (by decide)

/-- C5: process_response returns the original response unchanged on every
path, including when a step of the finalize, persist or broadcast path
raises, and whenever a collector was bound, the finally block leaves all
three thread-local slots deleted. -/
theorem C5_response_preserved_and_cleanup :
    ∀ (locals0 : ThreadLocal) (response : HttpResponse) (endTime endMemory : Rat)
      (persistFails broadcastFails : Bool),
      ((process_response locals0 response endTime endMemory persistFails broadcastFails).1 =
          response) ∧
        (∀ c, locals0.collector = some c →
          (process_response locals0 response endTime endMemory persistFails
              broadcastFails).2.1 = ⟨none, none, none⟩) := by
  intro l r eT eM pf bf
  obtain ⟨c0, t0, m0⟩ := l
  constructor
  · cases c0 <;> cases t0 <;> cases m0 <;> cases pf <;> cases bf <;>
      simp [process_response]
  · intro c hc
    cases c0 <;> cases t0 <;> cases m0 <;> cases pf <;> cases bf <;>
      simp_all [process_response]

/-- Witness for C5 at a concrete bound collector. -/
theorem C5_response_preserved_and_cleanup_witness :
    ((process_response ⟨some ⟨"p", [], [], []⟩, some 0, some 0⟩ ⟨200, "ok"⟩ 1 1 false
          true).1 = ⟨200, "ok"⟩) ∧
      ((process_response ⟨some ⟨"p", [], [], []⟩, some 0, some 0⟩ ⟨200, "ok"⟩ 1 1 false
          true).2.1 = ⟨none, none, none⟩) :=
  ⟨(C5_response_preserved_and_cleanup ⟨some ⟨"p", [], [], []⟩, some 0, some 0⟩ ⟨200, "ok"⟩
      1 1 false true).1,
   (C5_response_preserved_and_cleanup ⟨some ⟨"p", [], [], []⟩, some 0, some 0⟩ ⟨200, "ok"⟩
      1 1 false true).2 ⟨"p", [], [], []⟩ rfl⟩

/-- C6 counterexample: on the empty query list analyze_queries returns
the empty dict, modelled none, not a populated analysis with zero count,
zero time and empty lists. -/
theorem C6_counterexample :
    analyze_queries (mkRat 1 10) [] ≠ some ⟨0, 0, [], [], [], []⟩ := by
  decide

/-- C6 amended: analyze_queries applied to the empty query list returns,
without error, the empty dict carrying no analysis fields at all. -/
theorem C6_analyze_empty :
    ∀ threshold : Rat, analyze_queries threshold [] = none := by
  intro threshold
  rfl

/-- Witness for C6 at the default threshold. -/
theorem C6_analyze_empty_witness :
    analyze_queries (mkRat 1 10) [] = none :=
  C6_analyze_empty (mkRat 1 10)

/-- C7: a normalized-signature group is reported as an N-plus-one
candidate exactly when its member count is strictly greater than two,
with its signature, count and member indices; three queries sharing a
signature with distinct literals yield exactly one candidate group of
size three, and exactly two such queries yield no candidate. -/
theorem C7_n_plus_one_threshold :
    (∀ (threshold : Rat) (qs : List AnalyzedQuery) (cands : List NPlusOneGroup),
        (analyze_queries threshold qs).map QueryAnalysis.n_plus_one_candidates =
            some cands →
        ∀ sig cnt idxs, (NPlusOneGroup.mk sig cnt idxs) ∈ cands ↔
          ((sig, idxs) ∈ groupByNormalized 0 [] qs ∧ cnt = idxs.length ∧
            2 < idxs.length)) ∧
      ((analyze_queries (mkRat 1 10) nPlusOneQs3).map
          QueryAnalysis.n_plus_one_candidates =
        some [⟨"select * from t where id = N", 3, [0, 1, 2]⟩]) ∧
      ((analyze_queries (mkRat 1 10) nPlusOneQs2).map
          QueryAnalysis.n_plus_one_candidates = some []) := by
  refine ⟨?_, by decide, by decide⟩
  intro threshold qs cands h sig cnt idxs
  by_cases hq : qs = []
  · subst hq; simp [analyze_queries] at h
  · simp [analyze_queries, hq] at h
    subst h
    exact mem_nPlusOneOf (groupByNormalized 0 [] qs) sig cnt idxs

/-- Witness for C7: the candidate-membership equivalence at a concrete
input. -/
theorem C7_n_plus_one_threshold_witness :
    (NPlusOneGroup.mk "select * from t where id = N" 3 [0, 1, 2]) ∈
        [NPlusOneGroup.mk "select * from t where id = N" 3 [0, 1, 2]] ↔
      (("select * from t where id = N", [0, 1, 2]) ∈
          groupByNormalized 0 [] nPlusOneQs3 ∧
        3 = [0, 1, 2].length ∧ 2 < [0, 1, 2].length) :=
  C7_n_plus_one_threshold.1 (mkRat 1 10) nPlusOneQs3
    [NPlusOneGroup.mk "select * from t where id = N" 3 [0, 1, 2]] (by decide)
    "select * from t where id = N" 3 [0, 1, 2]

/-- C8: an anonymous principal closes with 4001 and is never registered;
an authenticated principal without the capability closes with 4003 and
is never registered; a principal passing both checks is registered with
the broadcast group and accepted. -/
theorem C8_connect_authorization :
    ∀ (u : DashUser) (registry : List String) (channel : String),
      (u.anonymous = true →
          ProfileDashboardConsumer.connect u registry channel = (.closed 4001, registry)) ∧
        (u.anonymous = false → _has_profiler_permission u = false →
          ProfileDashboardConsumer.connect u registry channel = (.closed 4003, registry)) ∧
        (u.anonymous = false → _has_profiler_permission u = true →
          ProfileDashboardConsumer.connect u registry channel =
            (.accepted, registry ++ [channel])) := by
  intro u reg ch
  obtain ⟨ua, us, up⟩ := u
  refine ⟨fun h1 => ?_, fun h1 h2 => ?_, fun h1 h2 => ?_⟩ <;>
    cases ua <;> cases us <;> cases up <;>
      simp_all [ProfileDashboardConsumer.connect, _has_profiler_permission]

/-- Witness for C8 at a concrete anonymous principal. -/
theorem C8_connect_authorization_witness :
    ProfileDashboardConsumer.connect ⟨true, false, false⟩ [] "chan" = (.closed 4001, []) :=
  (C8_connect_authorization ⟨true, false, false⟩ [] "chan").1 rfl

/-- C9: normalization is deterministic, equal inputs give equal outputs,
and the two sql texts differing only in a bare integer literal produce
the same signature, both mapping to the placeholder form. -/
theorem C9_normalize_deterministic :
    _normalize_sql "SELECT * FROM t WHERE id = 42" = "select * from t where id = N" ∧
      _normalize_sql "SELECT * FROM t WHERE id = 7" = "select * from t where id = N" ∧
      ∀ s t : String, s = t → _normalize_sql s = _normalize_sql t :=
  ⟨by decide, by decide, fun s t h => by rw [h]⟩

/-- Witness for C9 at a concrete equal pair. -/
theorem C9_normalize_deterministic_witness :
    _normalize_sql "SELECT 1" = _normalize_sql "SELECT 1" :=
  C9_normalize_deterministic.2.2 "SELECT 1" "SELECT 1" rfl

/-- C10 counterexample: a frame of well-formed JSON that is not an object
is answered with an error reply although it is valid JSON and no handler
raised, against the claim that an error reply arises only from invalid
JSON or a raising handler. -/
theorem C10_counterexample :
    (ProfileDashboardConsumer.receive ⟨false, false, false⟩ .nonObjectJson).sent =
        [.errorReply] ∧
      InboundText.nonObjectJson ≠ InboundText.malformed := by
  decide

/-- C10 amended: a JSON object whose type is none of the three handled
values is silently dropped with no reply and no session close; an error
reply arises exactly from invalid JSON, from valid JSON that is not an
object, or from a raising handler; receive never closes the session. -/
theorem C10_receive_dispatch :
    (∀ (raises : HandlerRaises) (msgType : Option String),
        msgType ∉ [some "request_history", some "request_details",
          some "toggle_profiler"] →
        ProfileDashboardConsumer.receive raises (.objectJson msgType) = ⟨[], false⟩) ∧
      (∀ (raises : HandlerRaises) (msg : InboundText),
        OutMsg.errorReply ∈ (ProfileDashboardConsumer.receive raises msg).sent ↔
          (msg = .malformed ∨ msg = .nonObjectJson ∨
            (msg = .objectJson (some "request_history") ∧ raises.history = true) ∨
            (msg = .objectJson (some "request_details") ∧ raises.details = true) ∨
            (msg = .objectJson (some "toggle_profiler") ∧ raises.toggle = true))) ∧
      (∀ (raises : HandlerRaises) (msg : InboundText),
        (ProfileDashboardConsumer.receive raises msg).closedSession = false) := by
  refine ⟨?_, ?_, ?_⟩
  · intro raises msgType h
    simp only [List.mem_cons, List.mem_singleton, not_or] at h
    obtain ⟨h1, h2, h3, -⟩ := h
    simp [ProfileDashboardConsumer.receive, h1, h2, h3]
  · intro raises msg
    obtain ⟨rh, rd, rt⟩ := raises
    cases msg with
    | malformed => simp [ProfileDashboardConsumer.receive]
    | nonObjectJson => simp [ProfileDashboardConsumer.receive]
    | objectJson msgType =>
      by_cases h1 : msgType = some "request_history"
      · subst h1; cases rh <;> simp [ProfileDashboardConsumer.receive]
      · by_cases h2 : msgType = some "request_details"
        · subst h2; cases rd <;> simp [ProfileDashboardConsumer.receive]
        · by_cases h3 : msgType = some "toggle_profiler"
          · subst h3; cases rt <;> simp [ProfileDashboardConsumer.receive]
          · simp [ProfileDashboardConsumer.receive, h1, h2, h3]
  · intro raises msg
    obtain ⟨rh, rd, rt⟩ := raises
    cases msg with
    | malformed => rfl
    | nonObjectJson => rfl
    | objectJson msgType =>
      by_cases h1 : msgType = some "request_history"
      · subst h1; cases rh <;> rfl
      · by_cases h2 : msgType = some "request_details"
        · subst h2; cases rd <;> simp [ProfileDashboardConsumer.receive, h1]
        · by_cases h3 : msgType = some "toggle_profiler"
          · subst h3; cases rt <;> simp [ProfileDashboardConsumer.receive, h1, h2]
          · simp [ProfileDashboardConsumer.receive, h1, h2, h3]

/-- Witness for C10: a concrete unknown type is dropped silently. -/
theorem C10_receive_dispatch_witness :
    ProfileDashboardConsumer.receive ⟨false, false, false⟩ (.objectJson (some "ping")) =
      ⟨[], false⟩ :=
  C10_receive_dispatch.1 ⟨false, false, false⟩ (some "ping") (by decide)

end DjangoProfileboard

